import Mathlib

/-
  Verification of the skillprep assessment core (src/config.py, src/llm_api.py,
  src/app.py) against its natural-language specification.

  Shallow embedding conventions:
  * Parsed JSON values (the output of json.loads) are modelled by the inductive
    type `Json`; Python dicts appearing in the program are association lists
    with first-match lookup and in-place update (new keys appended at the end),
    matching Python dict insertion-order semantics.
  * Python floats are modelled as rationals; the concrete values exercised by
    the claims (50.0, 100.0, means of such) are exactly representable.
  * An uncaught Python exception is modelled by `Option.none` (or by the
    `Except.error` branch where the surrounding code catches it).
  * `random.shuffle` is modelled by an explicit oracle argument
    `σ : Nat → List (String × Json) → List (String × Json)` giving, for each
    question position, the shuffled order of the option items; theorems that
    need it carry the hypothesis that the oracle is a permutation.
  * The external content-generation service together with json.loads is
    abstracted by the `parsed : Option Json` argument of
    `generate_questions`: `none` models a json.JSONDecodeError, `some j` a
    successfully parsed value.
-/

namespace SkillPrep

/-- Model of a parsed JSON value (the result of json.loads). -/
inductive Json where
  | null
  | bool (b : Bool)
  | num (n : ℚ)
  | str (s : String)
  | arr (elems : List Json)
  | obj (fields : List (String × Json))

mutual

/-- Structural boolean equality on JSON values, modelling the Python
equality used by the source code to compare option texts. -/
def Json.beq : Json → Json → Bool
  | .null, .null => true
  | .bool a, .bool b => a == b
  | .num a, .num b => a == b
  | .str a, .str b => a == b
  | .arr a, .arr b => Json.beqList a b
  | .obj a, .obj b => Json.beqFields a b
  | _, _ => false

/-- Boolean equality on JSON arrays, componentwise. -/
def Json.beqList : List Json → List Json → Bool
  | [], [] => true
  | a :: as, b :: bs => Json.beq a b && Json.beqList as bs
  | _, _ => false

/-- Boolean equality on JSON object field lists, componentwise. -/
def Json.beqFields : List (String × Json) → List (String × Json) → Bool
  | [], [] => true
  | (k, v) :: as, (k', v') :: bs => k == k' && Json.beq v v' && Json.beqFields as bs
  | _, _ => false

end

mutual

theorem Json.beq_iff : ∀ a b, Json.beq a b = true ↔ a = b
  | .null, b => by cases b <;> simp [Json.beq]
  | .bool x, b => by cases b <;> simp [Json.beq]
  | .num x, b => by cases b <;> simp [Json.beq]
  | .str x, b => by cases b <;> simp [Json.beq]
  | .arr xs, b => by
      cases b <;> simp [Json.beq]
      exact Json.beqList_iff xs _
  | .obj xs, b => by
      cases b <;> simp [Json.beq]
      exact Json.beqFields_iff xs _

theorem Json.beqList_iff : ∀ as bs, Json.beqList as bs = true ↔ as = bs
  | [], bs => by cases bs <;> simp [Json.beqList]
  | a :: as, bs => by
      cases bs with
      | nil => simp [Json.beqList]
      | cons b bs =>
          simp [Json.beqList, Json.beq_iff a b, Json.beqList_iff as bs]

theorem Json.beqFields_iff : ∀ as bs, Json.beqFields as bs = true ↔ as = bs
  | [], bs => by cases bs <;> simp [Json.beqFields]
  | (k, v) :: as, bs => by
      cases bs with
      | nil => simp [Json.beqFields]
      | cons b bs =>
          obtain ⟨k', v'⟩ := b
          simp [Json.beqFields, Json.beq_iff v v', Json.beqFields_iff as bs,
            and_assoc]

end

instance : DecidableEq Json := fun a b => decidable_of_iff _ (Json.beq_iff a b)

/-- A Python dict with string keys, as an insertion-ordered association list. -/
abbrev PyDict (α : Type) := List (String × α)

/-- Python dict read `m[k]` / `m.get(k)`: first matching entry. -/
def alookup {α : Type} : PyDict α → String → Option α
  | [], _ => none
  | (k', v) :: rest, k => if k' = k then some v else alookup rest k

/-- Python dict write `m[k] = v`: replaces the value of an existing key in
place, otherwise appends the new key at the end (Python insertion order). -/
def aset {α : Type} : PyDict α → String → α → PyDict α
  | [], k, v => [(k, v)]
  | (k', v') :: rest, k, v =>
      if k' = k then (k, v) :: rest else (k', v') :: aset rest k v

theorem alookup_aset {α : Type} (m : PyDict α) (k : String) (v : α) (k₂ : String) :
    alookup (aset m k v) k₂ = if k₂ = k then some v else alookup m k₂ := by
  induction m with
  | nil =>
      simp only [aset, alookup]
      by_cases h : k = k₂
      · subst h
        simp
      · rw [if_neg h, if_neg (Ne.symm h)]
  | cons p rest ih =>
      obtain ⟨k', v'⟩ := p
      simp only [aset]
      by_cases h : k' = k
      · subst h
        simp only [if_pos rfl, alookup]
        by_cases h2 : k' = k₂
        · rw [if_pos h2, if_pos h2.symm]
        · rw [if_neg h2, if_neg (Ne.symm h2), if_neg h2]
      · rw [if_neg h]
        simp only [alookup]
        by_cases h2 : k' = k₂
        · rw [if_pos h2, if_neg (show ¬k₂ = k from fun hh => h (h2.trans hh)),
            if_pos h2]
        · rw [if_neg h2, if_neg h2, ih]

/-- A JSON question object (a Python dict of JSON values). -/
abbrev Obj := PyDict Json

/-- The global CORRECT_ANSWERS dict from src/config.py line 50: maps the
string key "{category}_{i}" to the stored correct label. -/
abbrev KeyMap := PyDict Json

/-- The f-string key `f"{category}_{i}"` used at src/llm_api.py lines 113 and
144 and src/app.py line 177. -/
def mkKey (category : String) (i : Nat) : String :=
  category ++ "_" ++ toString i

/-- Category metadata record from CATEGORY_DETAILS in src/config.py. -/
structure CategoryInfo where
  description : String
  focus_areas : List String

/-- The constants of src/config.py gathered as one record, so that theorems
can speak about varying individual entries of the configuration module. -/
structure Config where
  skill_categories : List String
  category_details : PyDict CategoryInfo
  score_thresholds : PyDict ℚ
  question_weights : PyDict ℚ

/-- SKILL_CATEGORIES, src/config.py lines 2-11. -/
def SKILL_CATEGORIES : List String :=
  ["Core Employability Skills", "Soft Skills", "Professional Skills",
   "AI Literacy", "Domain-Specific Skills", "Job Application Skills",
   "Entrepreneurial Skills", "Project Management Skills"]

/-- CATEGORY_DETAILS, src/config.py lines 14-47. -/
def CATEGORY_DETAILS : PyDict CategoryInfo :=
  [("Core Employability Skills",
    ⟨"Basic skills required for employment",
     ["Problem Solving", "Time Management", "Critical Thinking", "Adaptability"]⟩),
   ("Soft Skills",
    ⟨"Interpersonal and communication abilities",
     ["Communication", "Teamwork", "Leadership", "Emotional Intelligence"]⟩),
   ("Professional Skills",
    ⟨"Skills specific to professional workplace",
     ["Business Ethics", "Professional Communication", "Work Ethics", "Industry Knowledge"]⟩),
   ("AI Literacy",
    ⟨"Understanding and working with AI technologies",
     ["AI Basics", "AI Tools", "Data Understanding", "AI Ethics"]⟩),
   ("Domain-Specific Skills",
    ⟨"Technical skills for specific field",
     ["Technical Knowledge", "Industry Tools", "Best Practices", "Technical Problem Solving"]⟩),
   ("Job Application Skills",
    ⟨"Skills for job search and application",
     ["Resume Writing", "Interview Skills", "Personal Branding", "Job Search Strategies"]⟩),
   ("Entrepreneurial Skills",
    ⟨"Skills for business and innovation",
     ["Innovation", "Risk Management", "Business Planning", "Market Analysis"]⟩),
   ("Project Management Skills",
    ⟨"Skills for managing projects and teams",
     ["Project Planning", "Team Management", "Risk Assessment", "Resource Allocation"]⟩)]

/-- SCORE_THRESHOLDS, src/config.py lines 53-58. -/
def SCORE_THRESHOLDS : PyDict ℚ :=
  [("Excellent", 80), ("Good", 70), ("Average", 60), ("Needs Improvement", 0)]

/-- QUESTION_WEIGHTS, src/config.py lines 61-70. -/
def QUESTION_WEIGHTS : PyDict ℚ :=
  [("Core Employability Skills", 12/10), ("Domain-Specific Skills", 12/10),
   ("Professional Skills", 11/10), ("AI Literacy", 1), ("Soft Skills", 1),
   ("Job Application Skills", 1), ("Entrepreneurial Skills", 9/10),
   ("Project Management Skills", 1)]

/-- The configuration module src/config.py as shipped. -/
def defaultConfig : Config :=
  ⟨SKILL_CATEGORIES, CATEGORY_DETAILS, SCORE_THRESHOLDS, QUESTION_WEIGHTS⟩

/-- The relabelling loop of shuffle_options, src/llm_api.py lines 34-41:
walks the shuffled item list, assigns the letters chr(97+i) in order,
and remembers (last write wins) the letter whose text equals the correct
answer text.  Returns the new options dict and the final new_correct. -/
def relabel : List (String × Json) → Nat → Option String → Json →
    Obj × Option String
  | [], _, nc, _ => ([], nc)
  | (_, ans) :: rest, i, nc, ca =>
      let letter := String.mk [Char.ofNat (97 + i)]
      let r := relabel rest (i + 1) (if ans = ca then some letter else nc) ca
      ((letter, ans) :: r.1, r.2)

/-- Python value written back into question["correct"]: the new letter, or
None when no option text matched. -/
def encodeCorrect : Option String → Json
  | some l => Json.str l
  | none => Json.null

/-- shuffle_options, src/llm_api.py lines 24-47.  `σ` gives the result of
`random.shuffle` on the items list.  `none` models an uncaught exception
(KeyError on a missing "options"/"correct" key or a `correct` value that is
not a key of the options dict, TypeError on a non-dict options value). -/
def shuffle_options (q : Obj)
    (σ : List (String × Json) → List (String × Json)) : Option Obj :=
  match alookup q "options" with
  | some (Json.obj opts) =>
      match alookup q "correct" with
      | some correct_letter =>
          let correct_answer? :=
            match correct_letter with
            | Json.str s => alookup opts s
            | _ => none
          match correct_answer? with
          | none => none
          | some correct_answer =>
              let r := relabel (σ opts) 0 none correct_answer
              some (aset (aset q "options" (Json.obj r.1))
                "correct" (encodeCorrect r.2))
      | none => none
  | _ => none

/-- The per-question validation of src/llm_api.py lines 100-106: requires the
keys question/options/correct/explanation, a dict-valued "options", and the
presence of all of "a","b","c","d" among the option keys.  A non-object list
element raises in Python (TypeError inside these same checks) exactly as a
ValueError does - both land in the catch-all fallback - so it is modelled as
a validation error as well. -/
def validate_question (i : Nat) (q : Json) : Except String Unit :=
  match q with
  | Json.obj fields =>
      if (["question", "options", "correct", "explanation"].all
          (fun k => (alookup fields k).isSome)) then
        match alookup fields "options" with
        | some (Json.obj opts) =>
            if (["a", "b", "c", "d"].all (fun k => (alookup opts k).isSome)) then
              Except.ok ()
            else
              Except.error ("Question " ++ toString (i + 1) ++ " is missing some options")
        | _ =>
            Except.error ("Question " ++ toString (i + 1) ++ " options is not a dictionary")
      else
        Except.error ("Question " ++ toString (i + 1) ++ " is missing required keys")
  | _ => Except.error ("Question " ++ toString (i + 1) ++ " is not an object")

/-- The dict fields of a JSON value known to be an object (the loop has
validated `isinstance(q["options"], dict)` and key membership before this is
used, so the non-object case is unreachable there). -/
def objFields : Json → Obj
  | Json.obj f => f
  | _ => []

/-- The validate/shuffle/record loop of src/llm_api.py lines 97-113.  On
success returns the shuffled questions and the updated CORRECT_ANSWERS; on a
validation failure or an exception inside shuffle_options it returns
`Except.error` carrying the CORRECT_ANSWERS as mutated so far (the writes of
the already-processed questions persist, since CORRECT_ANSWERS is a global
dict and the exception is caught only by the outer handler). -/
def processBatch (category : String)
    (σ : Nat → List (String × Json) → List (String × Json)) :
    List Json → Nat → KeyMap → Except KeyMap (List Obj × KeyMap)
  | [], _, keys => Except.ok ([], keys)
  | q :: rest, i, keys =>
      match validate_question i q with
      | Except.error _ => Except.error keys
      | Except.ok _ =>
          match shuffle_options (objFields q) (σ i) with
          | none => Except.error keys
          | some sq =>
              match alookup sq "correct" with
              | none => Except.error keys
              | some c =>
                  match processBatch category σ rest (i + 1)
                      (aset keys (mkKey category i) c) with
                  | Except.ok (qs, k) => Except.ok (sq :: qs, k)
                  | Except.error k => Except.error k

/-- The fixed options dict of every placeholder question,
src/llm_api.py lines 133-138. -/
def defaultOptionItems : List (String × Json) :=
  [("a", Json.str "Option A"), ("b", Json.str "Option B"),
   ("c", Json.str "Option C"), ("d", Json.str "Option D")]

/-- One placeholder question of generate_default_questions,
src/llm_api.py lines 130-141. -/
def default_question (category fa : String) (i : Nat) : Obj :=
  [("question", Json.str ("Sample question " ++ toString (i + 1) ++ " for " ++ category)),
   ("focus_area", Json.str fa),
   ("options", Json.obj defaultOptionItems),
   ("correct", Json.str "a"),
   ("explanation", Json.str "This is a default question due to API error.")]

/-- The `for i in range(5)` loop of generate_default_questions,
src/llm_api.py lines 129-144: build, shuffle, append, record the post-shuffle
correct label. -/
def gen_defaults_loop (category fa : String)
    (σ : Nat → List (String × Json) → List (String × Json)) :
    List Nat → KeyMap → Option (List Obj × KeyMap)
  | [], keys => some ([], keys)
  | i :: rest, keys =>
      match shuffle_options (default_question category fa i) (σ i) with
      | none => none
      | some sq =>
          match alookup sq "correct" with
          | none => none
          | some c =>
              match gen_defaults_loop category fa σ rest
                  (aset keys (mkKey category i) c) with
              | none => none
              | some (qs, k) => some (sq :: qs, k)

/-- generate_default_questions, src/llm_api.py lines 126-146.  `none` models
the uncaught KeyError/IndexError raised when the category has no
CATEGORY_DETAILS entry or an empty focus_areas list. -/
def generate_default_questions (cfg : Config) (category : String)
    (σ : Nat → List (String × Json) → List (String × Json))
    (keys : KeyMap) : Option (List Obj × KeyMap) :=
  match (alookup cfg.category_details category).bind
      (fun info => info.focus_areas.get? 0) with
  | none => none
  | some fa => gen_defaults_loop category fa σ (List.range 5) keys

/-- generate_questions, src/llm_api.py lines 49-124.  `parsed` abstracts the
external service call plus json.loads: `none` is a json.JSONDecodeError
(inner except, line 117), which falls back to the defaults.  The loop
`for i, q in enumerate(questions)` ranges over whatever json.loads
produced: over an array it runs the validate/shuffle/record body per
element; over an EMPTY dict or EMPTY string it runs zero iterations and
the function returns the empty list - no exception, no fallback, no key
writes; over a non-empty dict or non-empty string every iteration raises
(the substring membership test fails with ValueError, or the string
subscript q["options"] raises TypeError), and over null/bool/number
enumerate itself raises TypeError - all of which land in the outer
catch-all (line 122) and fall back.  An unknown category raises KeyError
both in the main body (line 51) and again inside the fallback (line 132),
so the exception escapes: modelled as `none`. -/
def generate_questions (cfg : Config) (category : String)
    (parsed : Option Json)
    (σ : Nat → List (String × Json) → List (String × Json))
    (keys : KeyMap) : Option (List Obj × KeyMap) :=
  match alookup cfg.category_details category with
  | none => none
  | some _ =>
      match parsed with
      | none => generate_default_questions cfg category σ keys
      | some (Json.arr qs) =>
          match processBatch category σ qs 0 keys with
          | Except.ok res => some res
          | Except.error keys' => generate_default_questions cfg category σ keys'
      | some (Json.obj []) => some ([], keys)
      | some (Json.obj (f :: fs)) => generate_default_questions cfg category σ keys
      | some (Json.str s) =>
          if s = "" then some ([], keys)
          else generate_default_questions cfg category σ keys
      | some _ => generate_default_questions cfg category σ keys

/-- The per-assessment mutable state: the st.session_state fields touched by
the flow state machine (src/app.py lines 69-79) together with the global
CORRECT_ANSWERS dict of src/config.py.  The cached question sets and the
student-info strings play no role in the claims and are omitted. -/
structure AppState where
  current_phase : String
  answers : PyDict (List String)
  current_category_index : Nat
  current_question_index : Nat
  correctAnswers : KeyMap

/-- The answer-recording idiom of src/app.py lines 142-144: create the
category's list if absent, then append the selected label. -/
def dictAppend (m : PyDict (List String)) (k : String) (v : String) :
    PyDict (List String) :=
  match alookup m k with
  | none => m ++ [(k, [v])]
  | some _ =>
      m.map (fun p => if p.1 = k then (p.1, p.2 ++ [v]) else p)

/-- The "Next Question" submit handler of display_test, src/app.py lines
140-164: append the selected label to the answer ledger of the current
category, then advance the question index, rolling over to the next category
at index 4 and switching the phase to "generate_report" when the last
category is finished.  `none` models the IndexError of line 106 when the
category index is out of range. -/
def answer_question (cfg : Config) (st : AppState) (answer : String) :
    Option AppState :=
  match cfg.skill_categories.get? st.current_category_index with
  | none => none
  | some category =>
      let answers' := dictAppend st.answers category answer
      if st.current_question_index < 4 then
        some ⟨st.current_phase, answers', st.current_category_index,
          st.current_question_index + 1, st.correctAnswers⟩
      else
        let ci := st.current_category_index + 1
        some ⟨(if cfg.skill_categories.length ≤ ci then "generate_report"
               else st.current_phase),
          answers', ci, 0, st.correctAnswers⟩

/-- The correct-answer count of calculate_scores, src/app.py lines 175-178:
`sum(1 for i, ans in enumerate(category_answers) if ans ==
CORRECT_ANSWERS[f"{category}_{i}"])`.  Every iteration evaluates the
CORRECT_ANSWERS subscript, so a missing key raises (modelled by `none`). -/
def category_correct_count (category : String) (ansList : List String)
    (keys : KeyMap) : Option Nat :=
  if ansList.enum.all (fun p => (alookup keys (mkKey category p.1)).isSome) then
    some (ansList.enum.countP
      (fun p => decide (alookup keys (mkKey category p.1) = some (Json.str p.2))))
  else
    none

/-- The loop of calculate_scores over SKILL_CATEGORIES, src/app.py lines
172-179: categories without recorded answers are skipped, the others are
scored (correct_count / len(category_answers)) * 100. -/
def calc_go (answers : PyDict (List String)) (keys : KeyMap) :
    List String → Option (PyDict ℚ)
  | [] => some []
  | category :: rest =>
      let ansList := (alookup answers category).getD []
      if ansList.isEmpty then calc_go answers keys rest
      else
        match category_correct_count category ansList keys with
        | none => none
        | some cc =>
            match calc_go answers keys rest with
            | none => none
            | some m => some ((category, ((cc : ℚ) / ansList.length) * 100) :: m)

/-- calculate_scores, src/app.py lines 170-180. -/
def calculate_scores (cfg : Config) (answers : PyDict (List String))
    (keys : KeyMap) : Option (PyDict ℚ) :=
  calc_go answers keys cfg.skill_categories

/-- Python true division: raises ZeroDivisionError (modelled `none`) on a
zero denominator. -/
def pydiv (a b : ℚ) : Option ℚ :=
  if b = 0 then none else some (a / b)

/-- The overall-score expression of display_report, src/app.py line 184:
`sum(scores.values()) / len(scores)`, with no emptiness guard. -/
def overall_score (scores : PyDict ℚ) : Option ℚ :=
  pydiv ((scores.map Prod.snd).sum) (scores.length)

/-- display_report's score pipeline, src/app.py lines 183-184: compute the
score map, then the unguarded mean. -/
def report_overall (cfg : Config) (answers : PyDict (List String))
    (keys : KeyMap) : Option ℚ :=
  match calculate_scores cfg answers keys with
  | none => none
  | some scores => overall_score scores

/-- Object-identity view of shuffle_options for the aliasing claims: a store
of question objects addressed by references.  shuffle_options assigns into
the dict it was handed (src/llm_api.py lines 44-45) and returns that same
dict (line 47), so the model updates the store at the input reference and
returns the unchanged reference. -/
def shuffle_options_ref (r : Nat) (store : List Obj)
    (σ : List (String × Json) → List (String × Json)) :
    Option (Nat × List Obj) :=
  match store.get? r with
  | none => none
  | some q => (shuffle_options q σ).map (fun q' => (r, store.set r q'))

/-- The end-to-end scenario of the spec's test list: a user who reads off
the Answer Key label recorded for (category, i) and answers with it; a
non-string (never produced) entry is read as "". -/
def answer_key_labels (keys : KeyMap) (category : String) : List String :=
  (List.range 5).map (fun i =>
    match alookup keys (mkKey category i) with
    | some (Json.str s) => s
    | _ => "")

/-- Concrete well-formed question used to instantiate the shuffler claims. -/
def c1_question : Obj :=
  [("question", Json.str "Q"),
   ("options", Json.obj
      [("a", Json.str "T1"), ("b", Json.str "T2"),
       ("c", Json.str "T3"), ("d", Json.str "T4")]),
   ("correct", Json.str "a"),
   ("explanation", Json.str "E")]

/-- Options dict with a fifth, extra key, for the validator claims. -/
def c6_options : List (String × Json) :=
  [("a", Json.str "1"), ("b", Json.str "2"), ("c", Json.str "3"),
   ("d", Json.str "4"), ("e", Json.str "5")]

/-- A question whose options carry an extra key "e" and whose correct label
"z" is not among its option keys. -/
def c6_question : Json :=
  Json.obj
    [("question", Json.str "q"), ("options", Json.obj c6_options),
     ("correct", Json.str "z"), ("explanation", Json.str "e")]

/-- A fully well-formed question, for the validator witness. -/
def c6_good_question : Json :=
  Json.obj
    [("question", Json.str "q"),
     ("options", Json.obj
        [("a", Json.str "1"), ("b", Json.str "2"),
         ("c", Json.str "3"), ("d", Json.str "4")]),
     ("correct", Json.str "a"), ("explanation", Json.str "e")]

/-- Concrete question stored in the object store for the aliasing claim. -/
def c9_input : Obj :=
  [("question", Json.str "Q"),
   ("options", Json.obj
      [("a", Json.str "A"), ("b", Json.str "B"),
       ("c", Json.str "C"), ("d", Json.str "D")]),
   ("correct", Json.str "a"),
   ("explanation", Json.str "E")]

/-- A shuffle outcome that swaps the first two option items. -/
def swapFirstTwo : List (String × Json) → List (String × Json)
  | x :: y :: rest => y :: x :: rest
  | l => l

/-- A single well-formed question element, as the external service could
return it inside a JSON array. -/
def c2_element : Json :=
  Json.obj
    [("question", Json.str "x"),
     ("options", Json.obj
        [("a", Json.str "1"), ("b", Json.str "2"),
         ("c", Json.str "3"), ("d", Json.str "4")]),
     ("correct", Json.str "a"), ("explanation", Json.str "y")]

/-- An Assessing-phase state sitting on the last question of the last
configured category. -/
def c5_state : AppState :=
  ⟨"generate_questions",
   [("Project Management Skills", ["a", "b", "c", "d"])], 7, 4, []⟩

/-- The spec's scorer example: two recorded answers for Soft Skills. -/
def c3_answers : PyDict (List String) := [("Soft Skills", ["a", "b"])]

/-- The spec's scorer example: answer key "a" then "c" for Soft Skills. -/
def c3_keys : KeyMap :=
  [("Soft Skills_0", Json.str "a"), ("Soft Skills_1", Json.str "c")]

/-- The spec's end-to-end scenario: a configuration with exactly two
categories. -/
def c8_config : Config :=
  ⟨["Cat1", "Cat2"],
   [("Cat1", ⟨"first scenario category", ["f1"]⟩),
    ("Cat2", ⟨"second scenario category", ["f2"]⟩)],
   SCORE_THRESHOLDS, []⟩

/-- A user answering label "a" to all five questions of both scenario
categories. -/
def c8_answers_a : PyDict (List String) :=
  [("Cat1", ["a", "a", "a", "a", "a"]), ("Cat2", ["a", "a", "a", "a", "a"])]

/-- A pre-existing answer-key entry for Soft Skills, used to observe that
generating another category leaves it untouched. -/
def c7_keys0 : KeyMap := [("Soft Skills_0", Json.str "c")]

/-- An Assessing-phase state carrying the pre-existing answer key. -/
def c7_state : AppState := ⟨"generate_questions", [], 0, 0, c7_keys0⟩

theorem alookup_mem {α : Type} {m : PyDict α} {k : String} {v : α}
    (h : alookup m k = some v) : (k, v) ∈ m := by
  induction m with
  | nil => simp [alookup] at h
  | cons p rest ih =>
      obtain ⟨k', v'⟩ := p
      by_cases hk : k' = k
      · subst hk
        simp [alookup] at h
        simp [h]
      · simp [alookup, hk] at h
        simp [ih h]

theorem relabel_four (k0 k1 k2 k3 : String) (a0 a1 a2 a3 t : Json) :
    relabel [(k0, a0), (k1, a1), (k2, a2), (k3, a3)] 0 none t =
      ([("a", a0), ("b", a1), ("c", a2), ("d", a3)],
       if a3 = t then some "d" else if a2 = t then some "c"
       else if a1 = t then some "b" else if a0 = t then some "a" else none) := rfl

theorem relabel_found4 (k0 k1 k2 k3 : String) (a0 a1 a2 a3 t : Json)
    (hmem : t = a0 ∨ t = a1 ∨ t = a2 ∨ t = a3) :
    ∃ l, (relabel [(k0, a0), (k1, a1), (k2, a2), (k3, a3)] 0 none t).2 = some l ∧
      alookup (relabel [(k0, a0), (k1, a1), (k2, a2), (k3, a3)] 0 none t).1 l
        = some t := by
  rw [relabel_four]
  by_cases h3 : a3 = t
  · exact ⟨"d", by simp [h3], by simp [alookup, h3]⟩
  · by_cases h2 : a2 = t
    · exact ⟨"c", by simp [h3, h2], by simp [alookup, h2]⟩
    · by_cases h1 : a1 = t
      · exact ⟨"b", by simp [h3, h2, h1], by simp [alookup, h1]⟩
      · have h0 : a0 = t := by
          rcases hmem with h | h | h | h
          · exact h.symm
          · exact absurd h.symm h1
          · exact absurd h.symm h2
          · exact absurd h.symm h3
        exact ⟨"a", by simp [h3, h2, h1, h0], by simp [alookup, h0]⟩

/-- C1: for every valid question (four options, `correct` a key of the
options) and every permutation the random source can produce, shuffle_options
succeeds, the multiset of option texts of the output equals that of the
input, and the text found at the output's `correct` label is the very text
that the input held at its `correct` label. -/
theorem c1_shuffle_preserves_texts (q : Obj) (opts : List (String × Json))
    (cs : String) (t : Json)
    (σ : List (String × Json) → List (String × Json))
    (hop : alookup q "options" = some (Json.obj opts))
    (hco : alookup q "correct" = some (Json.str cs))
    (hlen : opts.length = 4)
    (ht : alookup opts cs = some t)
    (hperm : (σ opts).Perm opts) :
    ∃ q' opts' cs', shuffle_options q σ = some q' ∧
      alookup q' "options" = some (Json.obj opts') ∧
      alookup q' "correct" = some (Json.str cs') ∧
      (opts'.map Prod.snd).Perm (opts.map Prod.snd) ∧
      alookup opts' cs' = some t := by
  have hmemo : (cs, t) ∈ σ opts := hperm.mem_iff.mpr (alookup_mem ht)
  have hl : (σ opts).length = 4 := hperm.length_eq.trans hlen
  rcases hσ : σ opts with _ | ⟨p0, _ | ⟨p1, _ | ⟨p2, _ | ⟨p3, _ | ⟨p4, rest⟩⟩⟩⟩⟩ <;>
    rw [hσ] at hl <;> simp at hl
  obtain ⟨k0, a0⟩ := p0
  obtain ⟨k1, a1⟩ := p1
  obtain ⟨k2, a2⟩ := p2
  obtain ⟨k3, a3⟩ := p3
  rw [hσ] at hmemo
  have hdisj : t = a0 ∨ t = a1 ∨ t = a2 ∨ t = a3 := by
    simp only [List.mem_cons, List.not_mem_nil, or_false, Prod.mk.injEq] at hmemo
    rcases hmemo with ⟨_, h⟩ | ⟨_, h⟩ | ⟨_, h⟩ | ⟨_, h⟩ <;> simp [h.symm]
  obtain ⟨l, hsnd, hlook⟩ := relabel_found4 k0 k1 k2 k3 a0 a1 a2 a3 t hdisj
  refine ⟨aset (aset q "options"
        (Json.obj (relabel [(k0, a0), (k1, a1), (k2, a2), (k3, a3)] 0 none t).1))
      "correct" (encodeCorrect (relabel [(k0, a0), (k1, a1), (k2, a2), (k3, a3)] 0 none t).2),
    (relabel [(k0, a0), (k1, a1), (k2, a2), (k3, a3)] 0 none t).1, l,
    ?_, ?_, ?_, ?_, hlook⟩
  · simp only [shuffle_options, hop, hco, ht, hσ]
  · rw [alookup_aset, if_neg (by decide : ¬"options" = "correct"), alookup_aset,
      if_pos rfl]
  · rw [alookup_aset, if_pos rfl, hsnd]
    simp [encodeCorrect]
  · rw [relabel_four]
    have h := hperm.map Prod.snd
    rw [hσ] at h
    simpa using h

/-- Witness for C1: shuffling the concrete question `c1_question` (correct
text "T1") with the reversing permutation again yields "T1" at the new
correct label. -/
theorem c1_witness :
    ((shuffle_options c1_question (fun l => l.reverse)).bind (fun q' =>
      match alookup q' "correct", alookup q' "options" with
      | some (Json.str cs'), some (Json.obj opts') => alookup opts' cs'
      | _, _ => none)) = some (Json.str "T1") := by
  obtain ⟨q', opts', cs', hs, ho, hc, _, hl⟩ :=
    c1_shuffle_preserves_texts c1_question
      [("a", Json.str "T1"), ("b", Json.str "T2"),
       ("c", Json.str "T3"), ("d", Json.str "T4")]
      "a" (Json.str "T1") (fun l => l.reverse)
      (by decide) (by decide) (by decide) (by decide) (by decide)
  rw [hs]
  show (match alookup q' "correct", alookup q' "options" with
    | some (Json.str cs'), some (Json.obj opts') => alookup opts' cs'
    | _, _ => none) = some (Json.str "T1")
  rw [hc, ho]
  exact hl

/-- C4, counterexample: display_report's overall-score expression
`sum(scores.values()) / len(scores)` is not guarded: on an empty score map
the division faults (ZeroDivisionError, modelled `none`) instead of
reporting a "no data" condition. -/
theorem c4_counterexample : overall_score [] = none := rfl

/-- C4 as amended: the overall-score computation of display_report carries
no emptiness guard - on an empty Score Map it raises an unguarded
division-by-zero fault - and for a non-empty Score Map it returns the
arithmetic mean of the values. -/
theorem c4_overall_mean (scores : PyDict ℚ) (h : scores ≠ []) :
    overall_score scores = some ((scores.map Prod.snd).sum / scores.length) := by
  have hne : ((scores.length : ℚ)) ≠ 0 := by
    intro hh
    have hz : scores.length = 0 := by exact_mod_cast hh
    exact h (List.length_eq_zero.mp hz)
  simp [overall_score, pydiv, hne]

/-- Witness for C4: a singleton score map has overall score equal to its
only value. -/
theorem c4_witness : overall_score [("X", (50 : ℚ))] = some 50 := by
  have h := c4_overall_mean [("X", (50 : ℚ))] (by simp)
  rw [h]
  norm_num

/-- C6, counterexample: this question has all four required keys, but its
options carry the extra key "e" (keys not exactly a-d) and its `correct`
value "z" is not among its option keys; the claim says the Validator rejects
it, yet the code's validation accepts it. -/
theorem c6_counterexample :
    validate_question 0 c6_question = Except.ok () ∧
    c6_options.map Prod.fst = ["a", "b", "c", "d", "e"] ∧
    alookup c6_options "z" = none := ⟨rfl, rfl, rfl⟩

theorem validator_ok_iff (i : Nat) (q : Json) :
    validate_question i q = Except.ok () ↔
      ∃ fields, q = Json.obj fields ∧
        (["question", "options", "correct", "explanation"].all
          (fun k => (alookup fields k).isSome)) = true ∧
        ∃ opts, alookup fields "options" = some (Json.obj opts) ∧
          (["a", "b", "c", "d"].all (fun k => (alookup opts k).isSome)) = true := by
  cases q with
  | obj fields =>
      simp only [validate_question]
      by_cases hreq : (["question", "options", "correct", "explanation"].all
          (fun k => (alookup fields k).isSome)) = true
      · rw [if_pos hreq]
        split
        · rename_i opts hopt
          by_cases habcd : (["a", "b", "c", "d"].all
              (fun k => (alookup opts k).isSome)) = true
          · rw [if_pos habcd]
            simp only [true_iff]
            exact ⟨fields, rfl, hreq, opts, hopt, habcd⟩
          · rw [if_neg habcd]
            constructor
            · intro hc
              exact absurd hc (by simp)
            · rintro ⟨fields', hf, _, opts', hopt', habcd'⟩
              obtain rfl : fields = fields' := by simpa using hf
              rw [hopt] at hopt'
              obtain rfl : opts = opts' := by simpa using hopt'
              exact absurd habcd' habcd
        · rename_i x hx
          constructor
          · intro hc
            exact absurd hc (by simp)
          · rintro ⟨fields', hf, _, opts', hopt', _⟩
            obtain rfl : fields = fields' := by simpa using hf
            exact absurd hopt' (hx opts')
      · rw [if_neg hreq]
        constructor
        · intro hc
          exact absurd hc (by simp)
        · rintro ⟨fields', hf, hreq', _, _, _⟩
          obtain rfl : fields = fields' := by simpa using hf
          exact absurd hreq' hreq
  | null => simp [validate_question]
  | bool b => simp [validate_question]
  | num n => simp [validate_question]
  | str s => simp [validate_question]
  | arr l => simp [validate_question]

theorem validator_error_messages (i : Nat) (q : Json) :
    validate_question i q = Except.ok () ∨
      validate_question i q =
        Except.error ("Question " ++ toString (i + 1) ++ " is missing required keys") ∨
      validate_question i q =
        Except.error ("Question " ++ toString (i + 1) ++ " options is not a dictionary") ∨
      validate_question i q =
        Except.error ("Question " ++ toString (i + 1) ++ " is missing some options") ∨
      validate_question i q =
        Except.error ("Question " ++ toString (i + 1) ++ " is not an object") := by
  cases q with
  | obj fields =>
      simp only [validate_question]
      by_cases hreq : (["question", "options", "correct", "explanation"].all
          (fun k => (alookup fields k).isSome)) = true
      · rw [if_pos hreq]
        split
        · rename_i opts hopt
          by_cases habcd : (["a", "b", "c", "d"].all
              (fun k => (alookup opts k).isSome)) = true
          · rw [if_pos habcd]
            exact Or.inl rfl
          · rw [if_neg habcd]
            exact Or.inr (Or.inr (Or.inr (Or.inl rfl)))
        · exact Or.inr (Or.inr (Or.inl rfl))
      · rw [if_neg hreq]
        exact Or.inr (Or.inl rfl)
  | null => exact Or.inr (Or.inr (Or.inr (Or.inr rfl)))
  | bool b => exact Or.inr (Or.inr (Or.inr (Or.inr rfl)))
  | num n => exact Or.inr (Or.inr (Or.inr (Or.inr rfl)))
  | str s => exact Or.inr (Or.inr (Or.inr (Or.inr rfl)))
  | arr l => exact Or.inr (Or.inr (Or.inr (Or.inr rfl)))

/-- C6 as amended: the Validator accepts exactly the object-shaped questions
that have all four required keys, a dict-valued `options`, and all of
"a","b","c","d" among the option keys - it does not reject extra option keys
and never checks that `correct` is among the option keys - and every
rejection is a descriptive error naming the question's position. -/
theorem c6_validator_characterization (i : Nat) (q : Json) :
    (validate_question i q = Except.ok () ↔
      ∃ fields, q = Json.obj fields ∧
        (["question", "options", "correct", "explanation"].all
          (fun k => (alookup fields k).isSome)) = true ∧
        ∃ opts, alookup fields "options" = some (Json.obj opts) ∧
          (["a", "b", "c", "d"].all (fun k => (alookup opts k).isSome)) = true)
    ∧ (validate_question i q = Except.ok () ∨
       validate_question i q =
         Except.error ("Question " ++ toString (i + 1) ++ " is missing required keys") ∨
       validate_question i q =
         Except.error ("Question " ++ toString (i + 1) ++ " options is not a dictionary") ∨
       validate_question i q =
         Except.error ("Question " ++ toString (i + 1) ++ " is missing some options") ∨
       validate_question i q =
         Except.error ("Question " ++ toString (i + 1) ++ " is not an object")) :=
  ⟨validator_ok_iff i q, validator_error_messages i q⟩

/-- Witness for C6: the characterization accepts a fully well-formed
question. -/
theorem c6_witness : validate_question 3 c6_good_question = Except.ok () :=
  (c6_validator_characterization 3 c6_good_question).1.mpr
    ⟨[("question", Json.str "q"),
      ("options", Json.obj
        [("a", Json.str "1"), ("b", Json.str "2"),
         ("c", Json.str "3"), ("d", Json.str "4")]),
      ("correct", Json.str "a"), ("explanation", Json.str "e")],
     rfl, rfl,
     [("a", Json.str "1"), ("b", Json.str "2"),
      ("c", Json.str "3"), ("d", Json.str "4")], rfl, rfl⟩

/-- C9, counterexample: shuffle_options hands back the very reference it was
given (reference 0, not a fresh object) and the question stored behind that
reference now has a different `correct` field ("b" instead of the original
"a"): the input question object is mutated in place, contradicting the
claim that the input is left unchanged. -/
theorem c9_counterexample :
    (shuffle_options_ref 0 [c9_input] swapFirstTwo).map
      (fun p => (p.1, (p.2.get? 0).bind (fun q => alookup q "correct"))) =
      some (0, some (Json.str "b"))
    ∧ alookup c9_input "correct" = some (Json.str "a") := ⟨rfl, rfl⟩

/-- C9 as amended: shuffle_options is pure apart from its random source, but
it does not return a fresh object: it writes the reshuffled options and the
new correct label into the question object it was handed and returns that
same reference, so the caller's object is updated in place (generate_questions
protects the parsed elements by passing a shallow copy, line 109). -/
theorem c9_shuffle_mutates_in_place (r : Nat) (store : List Obj) (q q' : Obj)
    (σ : List (String × Json) → List (String × Json))
    (hq : store.get? r = some q) (hs : shuffle_options q σ = some q') :
    shuffle_options_ref r store σ = some (r, store.set r q') := by
  unfold shuffle_options_ref
  rw [hq]
  show (shuffle_options q σ).map (fun q' => (r, store.set r q')) =
    some (r, store.set r q')
  rw [hs]
  rfl

/-- Witness for C9: the in-place-update description evaluated on the
concrete store. -/
theorem c9_witness :
    shuffle_options_ref 0 [c9_input] swapFirstTwo =
      some (0, [[("question", Json.str "Q"),
        ("options", Json.obj
          [("a", Json.str "B"), ("b", Json.str "A"),
           ("c", Json.str "C"), ("d", Json.str "D")]),
        ("correct", Json.str "b"), ("explanation", Json.str "E")]]) :=
  c9_shuffle_mutates_in_place 0 [c9_input] c9_input
    [("question", Json.str "Q"),
     ("options", Json.obj
        [("a", Json.str "B"), ("b", Json.str "A"),
         ("c", Json.str "C"), ("d", Json.str "D")]),
     ("correct", Json.str "b"), ("explanation", Json.str "E")]
    swapFirstTwo rfl (by decide)

theorem shuffle_default_spec (cat fa : String) (i : Nat)
    (f : List (String × Json) → List (String × Json))
    (hp : (f defaultOptionItems).Perm defaultOptionItems) :
    ∃ sq l, shuffle_options (default_question cat fa i) f = some sq ∧
      alookup sq "correct" = some (Json.str l) ∧
      ∀ j, validate_question j (Json.obj sq) = Except.ok () := by
  have hl : (f defaultOptionItems).length = 4 := hp.length_eq
  have hmemo : ("a", Json.str "Option A") ∈ f defaultOptionItems :=
    hp.mem_iff.mpr (by simp [defaultOptionItems])
  rcases hσ : f defaultOptionItems with _ | ⟨p0, _ | ⟨p1, _ | ⟨p2, _ | ⟨p3, _ | ⟨p4, rest⟩⟩⟩⟩⟩ <;>
    rw [hσ] at hl <;> simp at hl
  obtain ⟨k0, a0⟩ := p0
  obtain ⟨k1, a1⟩ := p1
  obtain ⟨k2, a2⟩ := p2
  obtain ⟨k3, a3⟩ := p3
  rw [hσ] at hmemo
  have hdisj : Json.str "Option A" = a0 ∨ Json.str "Option A" = a1 ∨
      Json.str "Option A" = a2 ∨ Json.str "Option A" = a3 := by
    simp only [List.mem_cons, List.not_mem_nil, or_false, Prod.mk.injEq] at hmemo
    rcases hmemo with ⟨_, h⟩ | ⟨_, h⟩ | ⟨_, h⟩ | ⟨_, h⟩ <;> simp [h.symm]
  have hfound : ∃ l, (relabel [(k0, a0), (k1, a1), (k2, a2), (k3, a3)] 0 none
      (Json.str "Option A")).2 = some l := by
    rw [relabel_four]
    by_cases h3 : a3 = Json.str "Option A"
    · exact ⟨"d", by simp [h3]⟩
    · by_cases h2 : a2 = Json.str "Option A"
      · exact ⟨"c", by simp [h3, h2]⟩
      · by_cases h1 : a1 = Json.str "Option A"
        · exact ⟨"b", by simp [h3, h2, h1]⟩
        · have h0 : a0 = Json.str "Option A" := by
            rcases hdisj with h | h | h | h
            · exact h.symm
            · exact absurd h.symm h1
            · exact absurd h.symm h2
            · exact absurd h.symm h3
          exact ⟨"a", by simp [h3, h2, h1, h0]⟩
  obtain ⟨l, hsnd⟩ := hfound
  refine ⟨aset (aset (default_question cat fa i) "options"
      (Json.obj (relabel [(k0, a0), (k1, a1), (k2, a2), (k3, a3)] 0 none
        (Json.str "Option A")).1))
    "correct" (encodeCorrect (relabel [(k0, a0), (k1, a1), (k2, a2), (k3, a3)] 0 none
        (Json.str "Option A")).2), l, ?_, ?_, ?_⟩
  · have hop : alookup (default_question cat fa i) "options" =
        some (Json.obj defaultOptionItems) := by
      simp [default_question, alookup]
    have hco : alookup (default_question cat fa i) "correct" =
        some (Json.str "a") := by
      simp [default_question, alookup]
    have hca : alookup defaultOptionItems "a" = some (Json.str "Option A") := rfl
    simp only [shuffle_options, hop, hco, hca, hσ]
  · rw [alookup_aset, if_pos rfl, hsnd]
    simp [encodeCorrect]
  · intro j
    rw [relabel_four]
    apply (validator_ok_iff j _).mpr
    refine ⟨_, rfl, ?_, [("a", a0), ("b", a1), ("c", a2), ("d", a3)], ?_, ?_⟩
    · simp [alookup_aset, default_question, alookup, encodeCorrect, List.all]
    · rw [alookup_aset, if_neg (by decide : ¬"options" = "correct"), alookup_aset,
        if_pos rfl]
    · simp [alookup, List.all]

theorem gen_defaults_spec (cat fa : String)
    (σ : Nat → List (String × Json) → List (String × Json))
    (hσ : ∀ i l, (σ i l).Perm l) (keys : KeyMap) :
    ∃ q0 q1 q2 q3 q4 l0 l1 l2 l3 l4,
      gen_defaults_loop cat fa σ (List.range 5) keys =
        some ([q0, q1, q2, q3, q4],
          aset (aset (aset (aset (aset keys (mkKey cat 0) (Json.str l0))
            (mkKey cat 1) (Json.str l1)) (mkKey cat 2) (Json.str l2))
            (mkKey cat 3) (Json.str l3)) (mkKey cat 4) (Json.str l4)) ∧
      (∀ q, (q = q0 ∨ q = q1 ∨ q = q2 ∨ q = q3 ∨ q = q4) →
        ∀ j, validate_question j (Json.obj q) = Except.ok ()) ∧
      alookup q0 "correct" = some (Json.str l0) ∧
      alookup q1 "correct" = some (Json.str l1) ∧
      alookup q2 "correct" = some (Json.str l2) ∧
      alookup q3 "correct" = some (Json.str l3) ∧
      alookup q4 "correct" = some (Json.str l4) := by
  obtain ⟨sq0, l0, hs0, hc0, hv0⟩ := shuffle_default_spec cat fa 0 (σ 0) (hσ 0 _)
  obtain ⟨sq1, l1, hs1, hc1, hv1⟩ := shuffle_default_spec cat fa 1 (σ 1) (hσ 1 _)
  obtain ⟨sq2, l2, hs2, hc2, hv2⟩ := shuffle_default_spec cat fa 2 (σ 2) (hσ 2 _)
  obtain ⟨sq3, l3, hs3, hc3, hv3⟩ := shuffle_default_spec cat fa 3 (σ 3) (hσ 3 _)
  obtain ⟨sq4, l4, hs4, hc4, hv4⟩ := shuffle_default_spec cat fa 4 (σ 4) (hσ 4 _)
  refine ⟨sq0, sq1, sq2, sq3, sq4, l0, l1, l2, l3, l4, ?_,
    ?_, hc0, hc1, hc2, hc3, hc4⟩
  · show gen_defaults_loop cat fa σ [0, 1, 2, 3, 4] keys = _
    simp only [gen_defaults_loop, hs0, hc0, hs1, hc1, hs2, hc2, hs3, hc3, hs4, hc4]
  · rintro q (rfl | rfl | rfl | rfl | rfl) j
    · exact hv0 j
    · exact hv1 j
    · exact hv2 j
    · exact hv3 j
    · exact hv4 j

theorem processBatch_ok_length (cat : String)
    (σ : Nat → List (String × Json) → List (String × Json)) :
    ∀ (qsin : List Json) (i : Nat) (keys : KeyMap) (qs : List Obj) (keys' : KeyMap),
      processBatch cat σ qsin i keys = Except.ok (qs, keys') →
      qs.length = qsin.length := by
  intro qsin
  induction qsin with
  | nil =>
      intro i keys qs keys' h
      simp only [processBatch] at h
      cases h
      rfl
  | cons q rest ih =>
      intro i keys qs keys' h
      simp only [processBatch] at h
      split at h
      · cases h
      · split at h
        · cases h
        · rename_i sq hsq
          split at h
          · cases h
          · rename_i c hc
            split at h
            · rename_i qs2 k2 hrec
              cases h
              simp [ih _ _ _ _ hrec]
            · cases h

theorem cat_details_first_focus : ∀ cat ∈ SKILL_CATEGORIES,
    ((alookup CATEGORY_DETAILS cat).bind
      (fun info => info.focus_areas.get? 0)).isSome = true := by
  decide

/-- C2 as amended: for every configured category and every shuffle outcome,
the Question Generator never fails outward, but it does not always return
exactly 5 questions: when the parsed response is a JSON array whose elements
all validate and shuffle cleanly, it returns one shuffled question per
element (exactly 5 only when the service sent exactly 5); when the parsed
response is an empty JSON object or an empty JSON string, the loop body
never runs and it returns zero questions, with no fallback and no Answer
Key writes; in every other case (parse failure, other non-array responses,
validation failure, or an exception during shuffling) it falls back to
exactly 5 placeholder questions, each of which passes the Validator's
checks. -/
theorem c2_generator (cat : String) (hcat : cat ∈ SKILL_CATEGORIES)
    (parsed : Option Json)
    (σ : Nat → List (String × Json) → List (String × Json))
    (hσ : ∀ i l, (σ i l).Perm l) (keys : KeyMap) :
    ∃ qs keys', generate_questions defaultConfig cat parsed σ keys = some (qs, keys') ∧
      ((∃ arr res, parsed = some (Json.arr arr) ∧
          processBatch cat σ arr 0 keys = Except.ok res ∧ qs = res.1 ∧ keys' = res.2 ∧
          qs.length = arr.length)
       ∨ ((parsed = some (Json.obj []) ∨ parsed = some (Json.str "")) ∧
          qs = [] ∧ keys' = keys)
       ∨ (qs.length = 5 ∧
          ∀ q ∈ qs, ∀ j, validate_question j (Json.obj q) = Except.ok ())) := by
  have hfa0 := cat_details_first_focus cat hcat
  rcases hd : alookup CATEGORY_DETAILS cat with _ | info
  · rw [hd] at hfa0
    simp at hfa0
  rcases hfa : info.focus_areas.get? 0 with _ | fa
  · rw [hd] at hfa0
    rw [Option.some_bind'] at hfa0
    rw [hfa] at hfa0
    simp at hfa0
  have hdefaults : ∀ k : KeyMap, ∃ qs keys',
      generate_default_questions defaultConfig cat σ k = some (qs, keys') ∧
      qs.length = 5 ∧
      ∀ q ∈ qs, ∀ j, validate_question j (Json.obj q) = Except.ok () := by
    intro k
    obtain ⟨q0, q1, q2, q3, q4, l0, l1, l2, l3, l4, hloop, hval, _⟩ :=
      gen_defaults_spec cat fa σ hσ k
    refine ⟨[q0, q1, q2, q3, q4],
      aset (aset (aset (aset (aset k (mkKey cat 0) (Json.str l0))
        (mkKey cat 1) (Json.str l1)) (mkKey cat 2) (Json.str l2))
        (mkKey cat 3) (Json.str l3)) (mkKey cat 4) (Json.str l4), ?_, rfl, ?_⟩
    · unfold generate_default_questions
      show (match (alookup defaultConfig.category_details cat).bind
          (fun info => info.focus_areas.get? 0) with
        | none => none
        | some fa => gen_defaults_loop cat fa σ (List.range 5) k) = _
      have hbind : (alookup defaultConfig.category_details cat).bind
          (fun info => info.focus_areas.get? 0) = some fa := by
        show (alookup CATEGORY_DETAILS cat).bind
          (fun info => info.focus_areas.get? 0) = some fa
        rw [hd]
        simpa using hfa
      rw [hbind]
      exact hloop
    · intro q hq j
      simp only [List.mem_cons, List.not_mem_nil, or_false] at hq
      exact hval q hq j
  have hdc : alookup defaultConfig.category_details cat = some info := hd
  rcases parsed with _ | j
  · obtain ⟨qs, keys', hgen, hlen, hval⟩ := hdefaults keys
    refine ⟨qs, keys', ?_, Or.inr (Or.inr ⟨hlen, hval⟩)⟩
    unfold generate_questions
    rw [hdc]
    exact hgen
  · cases j with
    | arr arr =>
        rcases hpb : processBatch cat σ arr 0 keys with keys2 | res
        · obtain ⟨qs, keys', hgen, hlen, hval⟩ := hdefaults keys2
          refine ⟨qs, keys', ?_, Or.inr (Or.inr ⟨hlen, hval⟩)⟩
          unfold generate_questions
          rw [hdc]
          show (match processBatch cat σ arr 0 keys with
            | Except.ok res => some res
            | Except.error keys' =>
                generate_default_questions defaultConfig cat σ keys') = _
          rw [hpb]
          exact hgen
        · obtain ⟨qs2, keys2⟩ := res
          refine ⟨qs2, keys2, ?_, Or.inl ⟨arr, (qs2, keys2), rfl, hpb, rfl, rfl,
            processBatch_ok_length cat σ arr 0 keys qs2 keys2 hpb⟩⟩
          unfold generate_questions
          rw [hdc]
          show (match processBatch cat σ arr 0 keys with
            | Except.ok res => some res
            | Except.error keys' =>
                generate_default_questions defaultConfig cat σ keys') = _
          rw [hpb]
    | null =>
        obtain ⟨qs, keys', hgen, hlen, hval⟩ := hdefaults keys
        refine ⟨qs, keys', ?_, Or.inr (Or.inr ⟨hlen, hval⟩)⟩
        unfold generate_questions
        rw [hdc]
        exact hgen
    | bool b =>
        obtain ⟨qs, keys', hgen, hlen, hval⟩ := hdefaults keys
        refine ⟨qs, keys', ?_, Or.inr (Or.inr ⟨hlen, hval⟩)⟩
        unfold generate_questions
        rw [hdc]
        exact hgen
    | num n =>
        obtain ⟨qs, keys', hgen, hlen, hval⟩ := hdefaults keys
        refine ⟨qs, keys', ?_, Or.inr (Or.inr ⟨hlen, hval⟩)⟩
        unfold generate_questions
        rw [hdc]
        exact hgen
    | str s =>
        by_cases hs : s = ""
        · subst hs
          refine ⟨[], keys, ?_, Or.inr (Or.inl ⟨Or.inr rfl, rfl, rfl⟩)⟩
          unfold generate_questions
          rw [hdc]
          rfl
        · obtain ⟨qs, keys', hgen, hlen, hval⟩ := hdefaults keys
          refine ⟨qs, keys', ?_, Or.inr (Or.inr ⟨hlen, hval⟩)⟩
          unfold generate_questions
          rw [hdc]
          show (if s = "" then some (([] : List Obj), keys)
            else generate_default_questions defaultConfig cat σ keys) = _
          rw [if_neg hs]
          exact hgen
    | obj fields =>
        cases fields with
        | nil =>
            refine ⟨[], keys, ?_, Or.inr (Or.inl ⟨Or.inl rfl, rfl, rfl⟩)⟩
            unfold generate_questions
            rw [hdc]
        | cons f fs =>
            obtain ⟨qs, keys', hgen, hlen, hval⟩ := hdefaults keys
            refine ⟨qs, keys', ?_, Or.inr (Or.inr ⟨hlen, hval⟩)⟩
            unfold generate_questions
            rw [hdc]
            exact hgen

/-- C2, counterexample: a well-formed array of one valid question makes the
Generator return exactly one question - not five - without any fallback:
the code never checks the batch size. -/
theorem c2_counterexample :
    (generate_questions defaultConfig "Soft Skills"
        (some (Json.arr [c2_element])) (fun _ l => l) []).map
      (fun p => p.1.length) = some 1 := rfl

/-- Witness for C2: with the service down (parse failure), the Generator
still returns exactly 5 questions. -/
theorem c2_witness :
    (generate_questions defaultConfig "Soft Skills" none (fun _ l => l) []).map
      (fun p => p.1.length) = some 5 := by
  obtain ⟨qs, keys', hgen, hdisj⟩ := c2_generator "Soft Skills" (by decide) none
    (fun _ l => l) (fun i l => List.Perm.refl l) []
  rw [hgen]
  rcases hdisj with ⟨arr, res, harr, _⟩ | ⟨hemp, _, _⟩ | ⟨hlen, _⟩
  · cases harr
  · rcases hemp with hemp | hemp <;> cases hemp
  · show some qs.length = some 5
    rw [hlen]

theorem calc_go_spec (answers : PyDict (List String)) (keys : KeyMap) :
    ∀ cats : List String,
      (∀ cat ∈ cats, (((alookup answers cat).getD []).enum.all
        (fun p => (alookup keys (mkKey cat p.1)).isSome)) = true) →
      ∃ m, calc_go answers keys cats = some m ∧
        ∀ cat, alookup m cat =
          if cat ∈ cats ∧ ((alookup answers cat).getD []) ≠ [] then
            some (((((alookup answers cat).getD []).enum.countP
                (fun p => decide (alookup keys (mkKey cat p.1) = some (Json.str p.2))) : ℚ))
              / ((alookup answers cat).getD []).length * 100)
          else none := by
  intro cats
  induction cats with
  | nil =>
      intro _
      refine ⟨[], rfl, ?_⟩
      intro cat
      simp [alookup]
  | cons cat0 rest ih =>
      intro hk
      obtain ⟨m, hm, hchar⟩ := ih (fun c hc => hk c (List.mem_cons_of_mem _ hc))
      by_cases hemp : ((alookup answers cat0).getD []) = []
      · refine ⟨m, ?_, ?_⟩
        · simp only [calc_go]
          rw [if_pos (by simpa [List.isEmpty_iff] using hemp)]
          exact hm
        · intro cat
          rw [hchar cat]
          by_cases hc : cat = cat0
          · subst hc
            simp [hemp]
          · simp [hc]
      · have hkall := hk cat0 (List.mem_cons_self _ _)
        refine ⟨(cat0, ((((alookup answers cat0).getD []).enum.countP
            (fun p => decide (alookup keys (mkKey cat0 p.1) = some (Json.str p.2))) : ℚ))
            / ((alookup answers cat0).getD []).length * 100) :: m, ?_, ?_⟩
        · simp only [calc_go]
          rw [if_neg (by simpa [List.isEmpty_iff] using hemp)]
          unfold category_correct_count
          rw [if_pos hkall, hm]
        · intro cat
          by_cases hc : cat = cat0
          · subst hc
            simp [alookup, hemp]
          · show (if cat0 = cat then _ else alookup m cat) = _
            rw [if_neg (fun hh => hc hh.symm), hchar cat]
            by_cases hmem : cat ∈ rest
            · simp [hmem, hc]
            · simp [hmem, hc]

/-- C3: for the configured category list, the Scorer succeeds whenever every
needed Answer Key entry exists, assigns to each category with at least one
recorded answer the score 100 * correctCount / answerCount, leaves each
category with no recorded answers absent from the Score Map, and contains
no other entries. -/
theorem c3_scorer (answers : PyDict (List String)) (keys : KeyMap)
    (hk : ∀ cat ∈ SKILL_CATEGORIES, (((alookup answers cat).getD []).enum.all
      (fun p => (alookup keys (mkKey cat p.1)).isSome)) = true) :
    ∃ m, calculate_scores defaultConfig answers keys = some m ∧
      (∀ cat ∈ SKILL_CATEGORIES, ((alookup answers cat).getD []) ≠ [] →
        alookup m cat = some
          (100 * ((((alookup answers cat).getD []).enum.countP
              (fun p => decide (alookup keys (mkKey cat p.1) = some (Json.str p.2))) : ℚ))
            / ((alookup answers cat).getD []).length)) ∧
      (∀ cat ∈ SKILL_CATEGORIES, ((alookup answers cat).getD []) = [] →
        alookup m cat = none) ∧
      (∀ cat, cat ∉ SKILL_CATEGORIES → alookup m cat = none) := by
  obtain ⟨m, hm, hchar⟩ := calc_go_spec answers keys SKILL_CATEGORIES hk
  refine ⟨m, hm, ?_, ?_, ?_⟩
  · intro cat hmem hne
    rw [hchar cat, if_pos ⟨hmem, hne⟩]
    congr 1
    ring
  · intro cat hmem hempty
    rw [hchar cat]
    simp [hempty]
  · intro cat hmem
    rw [hchar cat]
    simp [hmem]

/-- Witness for C3: the spec's example - ledger ["a","b"] against key
entries "a" and "c" scores 50.0, and a category without answers (AI
Literacy) is absent from the Score Map. -/
theorem c3_witness :
    ((calculate_scores defaultConfig c3_answers c3_keys).map
      (fun m => (alookup m "Soft Skills", alookup m "AI Literacy")))
      = some (some (50 : ℚ), none) := by
  obtain ⟨m, hm, hsome, hnone, _⟩ :=
    c3_scorer c3_answers c3_keys (by decide)
  rw [hm]
  have h1 := hsome "Soft Skills" (by decide) (by decide)
  have h2 := hnone "AI Literacy" (by decide) (by decide)
  show some (alookup m "Soft Skills", alookup m "AI Literacy") =
    some (some (50 : ℚ), none)
  rw [h1, h2]
  have hcount : ((((alookup c3_answers "Soft Skills").getD []).enum.countP
      (fun p => decide (alookup c3_keys (mkKey "Soft Skills" p.1) =
        some (Json.str p.2))))) = 1 := rfl
  rw [hcount]
  have hlen2 : ((alookup c3_answers "Soft Skills").getD []).length = 2 := rfl
  rw [hlen2]
  norm_num

/-- C5: in the Assessing phase, answering appends the selected label to the
current category's ledger and advances the question index; at question
index 4 it instead resets the question index to 0 and increments the
category index; and when the category index reaches the number of
configured categories the phase becomes Reporting
("generate_report"). The CORRECT_ANSWERS map is untouched. -/
theorem c5_flow (cfg : Config) (st : AppState) (ans : String)
    (hphase : st.current_phase = "generate_questions")
    (hcat : st.current_category_index < cfg.skill_categories.length)
    (hq : st.current_question_index < 5) :
    ∃ st' category,
      cfg.skill_categories.get? st.current_category_index = some category ∧
      answer_question cfg st ans = some st' ∧
      st'.answers = dictAppend st.answers category ans ∧
      st'.correctAnswers = st.correctAnswers ∧
      (st.current_question_index < 4 →
        st'.current_question_index = st.current_question_index + 1 ∧
        st'.current_category_index = st.current_category_index ∧
        st'.current_phase = st.current_phase) ∧
      (st.current_question_index = 4 →
        st'.current_question_index = 0 ∧
        st'.current_category_index = st.current_category_index + 1 ∧
        (st.current_category_index + 1 = cfg.skill_categories.length →
          st'.current_phase = "generate_report") ∧
        (st.current_category_index + 1 < cfg.skill_categories.length →
          st'.current_phase = st.current_phase)) := by
  have hget : cfg.skill_categories.get? st.current_category_index =
      some (cfg.skill_categories.get ⟨st.current_category_index, hcat⟩) :=
    List.get?_eq_get hcat
  by_cases h4 : st.current_question_index < 4
  · refine ⟨⟨st.current_phase,
        dictAppend st.answers
          (cfg.skill_categories.get ⟨st.current_category_index, hcat⟩) ans,
        st.current_category_index, st.current_question_index + 1,
        st.correctAnswers⟩,
      cfg.skill_categories.get ⟨st.current_category_index, hcat⟩,
      hget, ?_, rfl, rfl, ?_, ?_⟩
    · unfold answer_question
      rw [hget]
      show (if st.current_question_index < 4 then _ else _) = _
      rw [if_pos h4]
    · intro _
      exact ⟨rfl, rfl, rfl⟩
    · intro hc
      omega
  · have h4' : st.current_question_index = 4 := by omega
    refine ⟨⟨(if cfg.skill_categories.length ≤ st.current_category_index + 1
          then "generate_report" else st.current_phase),
        dictAppend st.answers
          (cfg.skill_categories.get ⟨st.current_category_index, hcat⟩) ans,
        st.current_category_index + 1, 0, st.correctAnswers⟩,
      cfg.skill_categories.get ⟨st.current_category_index, hcat⟩,
      hget, ?_, rfl, rfl, ?_, ?_⟩
    · unfold answer_question
      rw [hget]
      show (if st.current_question_index < 4 then _ else _) = _
      rw [if_neg h4]
    · intro hc
      omega
    · intro _
      refine ⟨rfl, rfl, ?_, ?_⟩
      · intro hlen
        show (if cfg.skill_categories.length ≤ st.current_category_index + 1
          then "generate_report" else st.current_phase) = "generate_report"
        rw [if_pos (le_of_eq hlen.symm)]
      · intro hlt
        show (if cfg.skill_categories.length ≤ st.current_category_index + 1
          then "generate_report" else st.current_phase) = st.current_phase
        rw [if_neg (by omega)]

/-- Witness for C5: answering the last question of the last configured
category transitions the phase to Reporting with indices reset. -/
theorem c5_witness :
    (answer_question defaultConfig c5_state "a").map
      (fun st' => (st'.current_phase, st'.current_category_index,
        st'.current_question_index)) = some ("generate_report", 8, 0) := by
  obtain ⟨st', category, hcatg, heq, hans, hkeys, h1, h2⟩ :=
    c5_flow defaultConfig c5_state "a" rfl (by decide) (by decide)
  obtain ⟨hq0, hc0, hp, _⟩ := h2 rfl
  rw [heq]
  show some (st'.current_phase, st'.current_category_index,
    st'.current_question_index) = some ("generate_report", 8, 0)
  rw [hq0, hc0, hp (by decide)]
  rfl

theorem processBatch_preserves_other_keys (cat : String)
    (σ : Nat → List (String × Json) → List (String × Json)) (k : String)
    (hk : ∀ j, k ≠ mkKey cat j) :
    ∀ (qsin : List Json) (i : Nat) (keys : KeyMap),
      (∀ qs keys', processBatch cat σ qsin i keys = Except.ok (qs, keys') →
        alookup keys' k = alookup keys k) ∧
      (∀ keys', processBatch cat σ qsin i keys = Except.error keys' →
        alookup keys' k = alookup keys k) := by
  intro qsin
  induction qsin with
  | nil =>
      intro i keys
      constructor
      · intro qs keys' h
        have h' : Except.ok (ε := KeyMap) (([] : List Obj), keys) =
            Except.ok (qs, keys') := h
        injection h' with hh
        injection hh with h1 h2
        rw [← h2]
      · intro keys' h
        exact Except.noConfusion h
  | cons q rest ih =>
      intro i keys
      constructor
      · intro qs keys' h
        simp only [processBatch] at h
        rcases hv : validate_question i q with e | u
        · simp only [hv] at h
          exact Except.noConfusion h
        · simp only [hv] at h
          rcases hsq : shuffle_options (objFields q) (σ i) with _ | sq
          · simp only [hsq] at h
            exact Except.noConfusion h
          · simp only [hsq] at h
            rcases hc : alookup sq "correct" with _ | c
            · simp only [hc] at h
              exact Except.noConfusion h
            · simp only [hc] at h
              rcases hrec : processBatch cat σ rest (i + 1)
                  (aset keys (mkKey cat i) c) with k2 | p
              · simp only [hrec] at h
                exact Except.noConfusion h
              · obtain ⟨qs2, k2⟩ := p
                simp only [hrec] at h
                have h' : Except.ok (ε := KeyMap) ((sq :: qs2 : List Obj), k2) =
                    Except.ok (qs, keys') := h
                injection h' with hh
                injection hh with h1 h2
                rw [← h2]
                have := (ih (i + 1) (aset keys (mkKey cat i) c)).1 qs2 k2 hrec
                rw [this, alookup_aset, if_neg (hk i)]
      · intro keys' h
        simp only [processBatch] at h
        rcases hv : validate_question i q with e | u
        · simp only [hv] at h
          have h' : Except.error (α := List Obj × KeyMap) keys =
              Except.error keys' := h
          injection h' with hh
          rw [← hh]
        · simp only [hv] at h
          rcases hsq : shuffle_options (objFields q) (σ i) with _ | sq
          · simp only [hsq] at h
            have h' : Except.error (α := List Obj × KeyMap) keys =
                Except.error keys' := h
            injection h' with hh
            rw [← hh]
          · simp only [hsq] at h
            rcases hc : alookup sq "correct" with _ | c
            · simp only [hc] at h
              have h' : Except.error (α := List Obj × KeyMap) keys =
                  Except.error keys' := h
              injection h' with hh
              rw [← hh]
            · simp only [hc] at h
              rcases hrec : processBatch cat σ rest (i + 1)
                  (aset keys (mkKey cat i) c) with k2 | p
              · simp only [hrec] at h
                have h' : Except.error (α := List Obj × KeyMap) k2 =
                    Except.error keys' := h
                injection h' with hh
                rw [← hh]
                have := (ih (i + 1) (aset keys (mkKey cat i) c)).2 k2 hrec
                rw [this, alookup_aset, if_neg (hk i)]
              · obtain ⟨qs2, k2⟩ := p
                simp only [hrec] at h
                exact Except.noConfusion h

theorem gen_defaults_loop_preserves_other_keys (cat fa : String)
    (σ : Nat → List (String × Json) → List (String × Json)) (k : String)
    (hk : ∀ j, k ≠ mkKey cat j) :
    ∀ (idxs : List Nat) (keys : KeyMap) (qs : List Obj) (keys' : KeyMap),
      gen_defaults_loop cat fa σ idxs keys = some (qs, keys') →
      alookup keys' k = alookup keys k := by
  intro idxs
  induction idxs with
  | nil =>
      intro keys qs keys' h
      have h' : some (([] : List Obj), keys) = some (qs, keys') := h
      injection h' with hh
      injection hh with h1 h2
      rw [← h2]
  | cons i rest ih =>
      intro keys qs keys' h
      simp only [gen_defaults_loop] at h
      rcases hsq : shuffle_options (default_question cat fa i) (σ i) with _ | sq
      · simp only [hsq] at h
        exact Option.noConfusion h
      · simp only [hsq] at h
        rcases hc : alookup sq "correct" with _ | c
        · simp only [hc] at h
          exact Option.noConfusion h
        · simp only [hc] at h
          rcases hrec : gen_defaults_loop cat fa σ rest
              (aset keys (mkKey cat i) c) with _ | p
          · simp only [hrec] at h
            exact Option.noConfusion h
          · obtain ⟨qs2, k2⟩ := p
            simp only [hrec] at h
            have h' : some ((sq :: qs2 : List Obj), k2) = some (qs, keys') := h
            injection h' with hh
            injection hh with h1 h2
            rw [← h2]
            have := ih (aset keys (mkKey cat i) c) qs2 k2 hrec
            rw [this, alookup_aset, if_neg (hk i)]

theorem generate_preserves_other_keys (cfg : Config) (cat : String)
    (parsed : Option Json)
    (σ : Nat → List (String × Json) → List (String × Json))
    (keys : KeyMap) (qs : List Obj) (keys' : KeyMap)
    (hgen : generate_questions cfg cat parsed σ keys = some (qs, keys'))
    (k : String) (hk : ∀ j, k ≠ mkKey cat j) :
    alookup keys' k = alookup keys k := by
  have hdef : ∀ (ks : KeyMap),
      generate_default_questions cfg cat σ ks = some (qs, keys') →
      alookup keys' k = alookup ks k := by
    intro ks h
    unfold generate_default_questions at h
    rcases hfa : (alookup cfg.category_details cat).bind
        (fun info => info.focus_areas.get? 0) with _ | fa
    · simp only [hfa] at h
      exact Option.noConfusion h
    · simp only [hfa] at h
      exact gen_defaults_loop_preserves_other_keys cat fa σ k hk _ ks qs keys' h
  unfold generate_questions at hgen
  rcases hd : alookup cfg.category_details cat with _ | info
  · simp only [hd] at hgen
    exact Option.noConfusion hgen
  · simp only [hd] at hgen
    rcases parsed with _ | j
    · exact hdef keys hgen
    · cases j with
      | arr arr =>
          rcases hpb : processBatch cat σ arr 0 keys with k2 | p
          · simp only [hpb] at hgen
            have h1 := (processBatch_preserves_other_keys cat σ k hk arr 0 keys).2 k2 hpb
            rw [hdef k2 hgen, h1]
          · obtain ⟨qs2, k2⟩ := p
            simp only [hpb] at hgen
            have h' : some ((qs2 : List Obj), k2) = some (qs, keys') := hgen
            injection h' with hh
            injection hh with h1 h2
            rw [← h2]
            exact (processBatch_preserves_other_keys cat σ k hk arr 0 keys).1 qs2 k2 hpb
      | null => exact hdef keys hgen
      | bool b => exact hdef keys hgen
      | num n => exact hdef keys hgen
      | str s =>
          by_cases hs : s = ""
          · subst hs
            have h' : some (([] : List Obj), keys) = some (qs, keys') := hgen
            injection h' with hh
            injection hh with h1 h2
            rw [← h2]
          · have e : (if s = "" then some (([] : List Obj), keys)
                else generate_default_questions cfg cat σ keys)
                = some (qs, keys') := hgen
            rw [if_neg hs] at e
            exact hdef keys e
      | obj fields =>
          cases fields with
          | nil =>
              have h' : some (([] : List Obj), keys) = some (qs, keys') := hgen
              injection h' with hh
              injection hh with h1 h2
              rw [← h2]
          | cons f fs => exact hdef keys hgen

theorem mkKey_ne (c d : String) (hcd1 : ¬ c.data <+: d.data)
    (hcd2 : ¬ d.data <+: c.data) (i j : Nat) : mkKey c i ≠ mkKey d j := by
  intro h
  unfold mkKey at h
  have hdata := congrArg String.data h
  rw [String.data_append, String.data_append, String.data_append,
    String.data_append, List.append_assoc, List.append_assoc] at hdata
  rcases List.append_eq_append_iff.mp hdata with ⟨a', ha, _⟩ | ⟨c', hc, _⟩
  · exact hcd1 ⟨a', ha.symm⟩
  · exact hcd2 ⟨c', hc.symm⟩

theorem config_cats_no_overlap : ∀ c ∈ SKILL_CATEGORIES, ∀ d ∈ SKILL_CATEGORIES,
    c ≠ d → ¬ c.data <+: d.data := by
  decide

/-- C7: Answer Key entries for (C, i) are stable: recording an answer never
touches CORRECT_ANSWERS, and generating any other configured category D
(whatever the service returned and wherever it fell back) only writes keys
of the form "D_j", which never collide with "C_i". -/
theorem c7_answer_key_stability :
    (∀ cfg st ans st', answer_question cfg st ans = some st' →
      st'.correctAnswers = st.correctAnswers)
    ∧ (∀ C D, C ∈ SKILL_CATEGORIES → D ∈ SKILL_CATEGORIES → C ≠ D →
       ∀ cfg parsed σ keys qs keys',
         generate_questions cfg D parsed σ keys = some (qs, keys') →
         ∀ i, alookup keys' (mkKey C i) = alookup keys (mkKey C i)) := by
  constructor
  · intro cfg st ans st' h
    unfold answer_question at h
    rcases hg : cfg.skill_categories.get? st.current_category_index with _ | category
    · simp only [hg] at h
      exact Option.noConfusion h
    · simp only [hg] at h
      by_cases h4 : st.current_question_index < 4
      · rw [if_pos h4] at h
        cases h
        rfl
      · rw [if_neg h4] at h
        cases h
        rfl
  · intro C D hC hD hCD cfg parsed σ keys qs keys' hgen i
    exact generate_preserves_other_keys cfg D parsed σ keys qs keys' hgen
      (mkKey C i)
      (fun j => mkKey_ne C D (config_cats_no_overlap C hC D hD hCD)
        (config_cats_no_overlap D hD C hC (Ne.symm hCD)) i j)

/-- Witness for C7: with a pre-existing "Soft Skills_0" entry, recording an
answer and then generating AI Literacy (service down, identity shuffle)
leaves the Soft Skills entry exactly as it was. -/
theorem c7_witness :
    ((answer_question defaultConfig c7_state "x").map
        (fun st' => st'.correctAnswers) = some c7_keys0)
    ∧ ((generate_questions defaultConfig "AI Literacy" none (fun _ l => l)
          c7_keys0).map
        (fun p => alookup p.2 (mkKey "Soft Skills" 0))
        = some (some (Json.str "c"))) := by
  constructor
  · have hq : answer_question defaultConfig c7_state "x" = some
        ⟨"generate_questions", [("Core Employability Skills", ["x"])], 0, 1,
         c7_keys0⟩ := rfl
    have h1 := c7_answer_key_stability.1 defaultConfig c7_state "x" _ hq
    rw [hq]
    exact congrArg some h1
  · have hgen : generate_questions defaultConfig "AI Literacy" none
        (fun _ l => l) c7_keys0 = some
        ((List.range 5).map (default_question "AI Literacy" "AI Basics"),
         [("Soft Skills_0", Json.str "c"),
          ("AI Literacy_0", Json.str "a"), ("AI Literacy_1", Json.str "a"),
          ("AI Literacy_2", Json.str "a"), ("AI Literacy_3", Json.str "a"),
          ("AI Literacy_4", Json.str "a")]) := rfl
    have h2 := c7_answer_key_stability.2 "Soft Skills" "AI Literacy" (by decide)
      (by decide) (by decide) defaultConfig none (fun _ l => l) c7_keys0 _ _ hgen 0
    rw [hgen]
    exact congrArg some h2

theorem alookup_aset_eq {α : Type} (m : PyDict α) (k : String) (v : α) :
    alookup (aset m k v) k = some v := by
  rw [alookup_aset, if_pos rfl]

theorem alookup_aset_ne {α : Type} (m : PyDict α) (k : String) (v : α)
    (k₂ : String) (h : k₂ ≠ k) : alookup (aset m k v) k₂ = alookup m k₂ := by
  rw [alookup_aset, if_neg h]

theorem mkKey_same_cat_ne (c : String) (i j : Nat)
    (hij : toString i ≠ toString j) : mkKey c i ≠ mkKey c j := by
  intro h
  apply hij
  unfold mkKey at h
  have hdata := congrArg String.data h
  rw [String.data_append, String.data_append, String.data_append,
    String.data_append, List.append_assoc, List.append_assoc] at hdata
  have h2 := List.append_cancel_left hdata
  have h3 := List.append_cancel_left h2
  exact String.ext h3

theorem gen_chain_lookup (cat : String) (keys : KeyMap) (v0 v1 v2 v3 v4 : Json) :
    alookup (aset (aset (aset (aset (aset keys (mkKey cat 0) v0)
        (mkKey cat 1) v1) (mkKey cat 2) v2) (mkKey cat 3) v3) (mkKey cat 4) v4)
      (mkKey cat 0) = some v0 ∧
    alookup (aset (aset (aset (aset (aset keys (mkKey cat 0) v0)
        (mkKey cat 1) v1) (mkKey cat 2) v2) (mkKey cat 3) v3) (mkKey cat 4) v4)
      (mkKey cat 1) = some v1 ∧
    alookup (aset (aset (aset (aset (aset keys (mkKey cat 0) v0)
        (mkKey cat 1) v1) (mkKey cat 2) v2) (mkKey cat 3) v3) (mkKey cat 4) v4)
      (mkKey cat 2) = some v2 ∧
    alookup (aset (aset (aset (aset (aset keys (mkKey cat 0) v0)
        (mkKey cat 1) v1) (mkKey cat 2) v2) (mkKey cat 3) v3) (mkKey cat 4) v4)
      (mkKey cat 3) = some v3 ∧
    alookup (aset (aset (aset (aset (aset keys (mkKey cat 0) v0)
        (mkKey cat 1) v1) (mkKey cat 2) v2) (mkKey cat 3) v3) (mkKey cat 4) v4)
      (mkKey cat 4) = some v4 ∧
    ∀ k, (∀ j, k ≠ mkKey cat j) →
      alookup (aset (aset (aset (aset (aset keys (mkKey cat 0) v0)
          (mkKey cat 1) v1) (mkKey cat 2) v2) (mkKey cat 3) v3) (mkKey cat 4) v4)
        k = alookup keys k := by
  refine ⟨?_, ?_, ?_, ?_, ?_, ?_⟩
  · rw [alookup_aset_ne _ _ _ _ (mkKey_same_cat_ne cat 0 4 (by decide)),
      alookup_aset_ne _ _ _ _ (mkKey_same_cat_ne cat 0 3 (by decide)),
      alookup_aset_ne _ _ _ _ (mkKey_same_cat_ne cat 0 2 (by decide)),
      alookup_aset_ne _ _ _ _ (mkKey_same_cat_ne cat 0 1 (by decide)),
      alookup_aset_eq]
  · rw [alookup_aset_ne _ _ _ _ (mkKey_same_cat_ne cat 1 4 (by decide)),
      alookup_aset_ne _ _ _ _ (mkKey_same_cat_ne cat 1 3 (by decide)),
      alookup_aset_ne _ _ _ _ (mkKey_same_cat_ne cat 1 2 (by decide)),
      alookup_aset_eq]
  · rw [alookup_aset_ne _ _ _ _ (mkKey_same_cat_ne cat 2 4 (by decide)),
      alookup_aset_ne _ _ _ _ (mkKey_same_cat_ne cat 2 3 (by decide)),
      alookup_aset_eq]
  · rw [alookup_aset_ne _ _ _ _ (mkKey_same_cat_ne cat 3 4 (by decide)),
      alookup_aset_eq]
  · rw [alookup_aset_eq]
  · intro k hk
    rw [alookup_aset_ne _ _ _ _ (hk 4), alookup_aset_ne _ _ _ _ (hk 3),
      alookup_aset_ne _ _ _ _ (hk 2), alookup_aset_ne _ _ _ _ (hk 1),
      alookup_aset_ne _ _ _ _ (hk 0)]

/-- C8 as amended: with the service down, both scenario categories fall
back to 5 placeholder questions; a user who answers every question with the
recorded Answer Key label for that question (the post-shuffle correct
label - only "a" when the shuffle happened to leave "Option A" in place)
scores 100.0 in both categories, and the overall score is 100.0, for every
shuffle outcome. -/
theorem c8_fallback_scenario
    (σ : Nat → List (String × Json) → List (String × Json))
    (hσ : ∀ i l, (σ i l).Perm l) :
    ∃ p1 p2,
      generate_questions c8_config "Cat1" none σ [] = some p1 ∧
      generate_questions c8_config "Cat2" none σ p1.2 = some p2 ∧
      p1.1.length = 5 ∧ p2.1.length = 5 ∧
      calculate_scores c8_config
        [("Cat1", answer_key_labels p2.2 "Cat1"),
         ("Cat2", answer_key_labels p2.2 "Cat2")] p2.2
        = some [("Cat1", 100), ("Cat2", 100)] ∧
      report_overall c8_config
        [("Cat1", answer_key_labels p2.2 "Cat1"),
         ("Cat2", answer_key_labels p2.2 "Cat2")] p2.2
        = some 100 := by
  obtain ⟨q0, q1, q2, q3, q4, l0, l1, l2, l3, l4, hloop1, _, _⟩ :=
    gen_defaults_spec "Cat1" "f1" σ hσ []
  obtain ⟨r0, r1, r2, r3, r4, m0, m1, m2, m3, m4, hloop2, _, _⟩ :=
    gen_defaults_spec "Cat2" "f2" σ hσ
      (aset (aset (aset (aset (aset [] (mkKey "Cat1" 0) (Json.str l0))
        (mkKey "Cat1" 1) (Json.str l1)) (mkKey "Cat1" 2) (Json.str l2))
        (mkKey "Cat1" 3) (Json.str l3)) (mkKey "Cat1" 4) (Json.str l4))
  obtain ⟨hk1a, hk1b, hk1c, hk1d, hk1e, _⟩ :=
    gen_chain_lookup "Cat1" [] (Json.str l0) (Json.str l1) (Json.str l2)
      (Json.str l3) (Json.str l4)
  obtain ⟨hk2a, hk2b, hk2c, hk2d, hk2e, hskip⟩ :=
    gen_chain_lookup "Cat2"
      (aset (aset (aset (aset (aset [] (mkKey "Cat1" 0) (Json.str l0))
        (mkKey "Cat1" 1) (Json.str l1)) (mkKey "Cat1" 2) (Json.str l2))
        (mkKey "Cat1" 3) (Json.str l3)) (mkKey "Cat1" 4) (Json.str l4))
      (Json.str m0) (Json.str m1) (Json.str m2) (Json.str m3) (Json.str m4)
  have hpre1 : ¬ ("Cat1".data <+: "Cat2".data) := by decide
  have hpre2 : ¬ ("Cat2".data <+: "Cat1".data) := by decide
  have hA : ∀ i, alookup
      (aset (aset (aset (aset (aset
        (aset (aset (aset (aset (aset [] (mkKey "Cat1" 0) (Json.str l0))
          (mkKey "Cat1" 1) (Json.str l1)) (mkKey "Cat1" 2) (Json.str l2))
          (mkKey "Cat1" 3) (Json.str l3)) (mkKey "Cat1" 4) (Json.str l4))
        (mkKey "Cat2" 0) (Json.str m0))
        (mkKey "Cat2" 1) (Json.str m1)) (mkKey "Cat2" 2) (Json.str m2))
        (mkKey "Cat2" 3) (Json.str m3)) (mkKey "Cat2" 4) (Json.str m4))
      (mkKey "Cat1" i) = alookup
      (aset (aset (aset (aset (aset [] (mkKey "Cat1" 0) (Json.str l0))
        (mkKey "Cat1" 1) (Json.str l1)) (mkKey "Cat1" 2) (Json.str l2))
        (mkKey "Cat1" 3) (Json.str l3)) (mkKey "Cat1" 4) (Json.str l4))
      (mkKey "Cat1" i) :=
    fun i => hskip (mkKey "Cat1" i)
      (fun j => mkKey_ne "Cat1" "Cat2" hpre1 hpre2 i j)
  have hA0 := (hA 0).trans hk1a
  have hA1 := (hA 1).trans hk1b
  have hA2 := (hA 2).trans hk1c
  have hA3 := (hA 3).trans hk1d
  have hA4 := (hA 4).trans hk1e
  refine ⟨([q0, q1, q2, q3, q4],
      aset (aset (aset (aset (aset [] (mkKey "Cat1" 0) (Json.str l0))
        (mkKey "Cat1" 1) (Json.str l1)) (mkKey "Cat1" 2) (Json.str l2))
        (mkKey "Cat1" 3) (Json.str l3)) (mkKey "Cat1" 4) (Json.str l4)),
    ([r0, r1, r2, r3, r4],
      aset (aset (aset (aset (aset
        (aset (aset (aset (aset (aset [] (mkKey "Cat1" 0) (Json.str l0))
          (mkKey "Cat1" 1) (Json.str l1)) (mkKey "Cat1" 2) (Json.str l2))
          (mkKey "Cat1" 3) (Json.str l3)) (mkKey "Cat1" 4) (Json.str l4))
        (mkKey "Cat2" 0) (Json.str m0))
        (mkKey "Cat2" 1) (Json.str m1)) (mkKey "Cat2" 2) (Json.str m2))
        (mkKey "Cat2" 3) (Json.str m3)) (mkKey "Cat2" 4) (Json.str m4)),
    ?_, ?_, rfl, rfl, ?_, ?_⟩
  · show gen_defaults_loop "Cat1" "f1" σ (List.range 5) [] = _
    exact hloop1
  · show gen_defaults_loop "Cat2" "f2" σ (List.range 5) _ = _
    exact hloop2
  all_goals {
    have hlab1 : answer_key_labels
        (aset (aset (aset (aset (aset
          (aset (aset (aset (aset (aset [] (mkKey "Cat1" 0) (Json.str l0))
            (mkKey "Cat1" 1) (Json.str l1)) (mkKey "Cat1" 2) (Json.str l2))
            (mkKey "Cat1" 3) (Json.str l3)) (mkKey "Cat1" 4) (Json.str l4))
          (mkKey "Cat2" 0) (Json.str m0))
          (mkKey "Cat2" 1) (Json.str m1)) (mkKey "Cat2" 2) (Json.str m2))
          (mkKey "Cat2" 3) (Json.str m3)) (mkKey "Cat2" 4) (Json.str m4))
        "Cat1" = [l0, l1, l2, l3, l4] := by
      show (List.range 5).map _ = _
      rw [show List.range 5 = [0, 1, 2, 3, 4] from rfl]
      simp only [List.map_cons, List.map_nil]
      rw [hA0, hA1, hA2, hA3, hA4]
    have hlab2 : answer_key_labels
        (aset (aset (aset (aset (aset
          (aset (aset (aset (aset (aset [] (mkKey "Cat1" 0) (Json.str l0))
            (mkKey "Cat1" 1) (Json.str l1)) (mkKey "Cat1" 2) (Json.str l2))
            (mkKey "Cat1" 3) (Json.str l3)) (mkKey "Cat1" 4) (Json.str l4))
          (mkKey "Cat2" 0) (Json.str m0))
          (mkKey "Cat2" 1) (Json.str m1)) (mkKey "Cat2" 2) (Json.str m2))
          (mkKey "Cat2" 3) (Json.str m3)) (mkKey "Cat2" 4) (Json.str m4))
        "Cat2" = [m0, m1, m2, m3, m4] := by
      show (List.range 5).map _ = _
      rw [show List.range 5 = [0, 1, 2, 3, 4] from rfl]
      simp only [List.map_cons, List.map_nil]
      rw [hk2a, hk2b, hk2c, hk2d, hk2e]
    have hccc1 : category_correct_count "Cat1" [l0, l1, l2, l3, l4]
        (aset (aset (aset (aset (aset
          (aset (aset (aset (aset (aset [] (mkKey "Cat1" 0) (Json.str l0))
            (mkKey "Cat1" 1) (Json.str l1)) (mkKey "Cat1" 2) (Json.str l2))
            (mkKey "Cat1" 3) (Json.str l3)) (mkKey "Cat1" 4) (Json.str l4))
          (mkKey "Cat2" 0) (Json.str m0))
          (mkKey "Cat2" 1) (Json.str m1)) (mkKey "Cat2" 2) (Json.str m2))
          (mkKey "Cat2" 3) (Json.str m3)) (mkKey "Cat2" 4) (Json.str m4))
        = some 5 := by
      simp [category_correct_count, List.enum, List.enumFrom,
        hA0, hA1, hA2, hA3, hA4]
    have hccc2 : category_correct_count "Cat2" [m0, m1, m2, m3, m4]
        (aset (aset (aset (aset (aset
          (aset (aset (aset (aset (aset [] (mkKey "Cat1" 0) (Json.str l0))
            (mkKey "Cat1" 1) (Json.str l1)) (mkKey "Cat1" 2) (Json.str l2))
            (mkKey "Cat1" 3) (Json.str l3)) (mkKey "Cat1" 4) (Json.str l4))
          (mkKey "Cat2" 0) (Json.str m0))
          (mkKey "Cat2" 1) (Json.str m1)) (mkKey "Cat2" 2) (Json.str m2))
          (mkKey "Cat2" 3) (Json.str m3)) (mkKey "Cat2" 4) (Json.str m4))
        = some 5 := by
      simp [category_correct_count, List.enum, List.enumFrom,
        hk2a, hk2b, hk2c, hk2d, hk2e]
    have hscores : calculate_scores c8_config
        [("Cat1", [l0, l1, l2, l3, l4]), ("Cat2", [m0, m1, m2, m3, m4])]
        (aset (aset (aset (aset (aset
          (aset (aset (aset (aset (aset [] (mkKey "Cat1" 0) (Json.str l0))
            (mkKey "Cat1" 1) (Json.str l1)) (mkKey "Cat1" 2) (Json.str l2))
            (mkKey "Cat1" 3) (Json.str l3)) (mkKey "Cat1" 4) (Json.str l4))
          (mkKey "Cat2" 0) (Json.str m0))
          (mkKey "Cat2" 1) (Json.str m1)) (mkKey "Cat2" 2) (Json.str m2))
          (mkKey "Cat2" 3) (Json.str m3)) (mkKey "Cat2" 4) (Json.str m4))
        = some [("Cat1", 100), ("Cat2", 100)] := by
      show calc_go _ _ ["Cat1", "Cat2"] = _
      simp only [calc_go, alookup]
      simp
      rw [hccc1, hccc2]
      norm_num
    first
      | (rw [hlab1, hlab2]; exact hscores)
      | (rw [hlab1, hlab2]
         unfold report_overall
         rw [hscores]
         simp [overall_score, pydiv])
  }

/-- Witness for C8: the full scenario run with the identity shuffle. -/
theorem c8_witness :
    ((generate_questions c8_config "Cat1" none (fun _ l => l) []).bind (fun p1 =>
      (generate_questions c8_config "Cat2" none (fun _ l => l) p1.2).bind (fun p2 =>
        report_overall c8_config
          [("Cat1", answer_key_labels p2.2 "Cat1"),
           ("Cat2", answer_key_labels p2.2 "Cat2")] p2.2)))
      = some 100 := by
  obtain ⟨p1, p2, h1, h2, _, _, _, hov⟩ :=
    c8_fallback_scenario (fun _ l => l) (fun i l => List.Perm.refl l)
  rw [h1]
  show (generate_questions c8_config "Cat2" none (fun _ l => l) p1.2).bind
      (fun p2 => report_overall c8_config
        [("Cat1", answer_key_labels p2.2 "Cat1"),
         ("Cat2", answer_key_labels p2.2 "Cat2")] p2.2) = some 100
  rw [h2]
  show report_overall c8_config
      [("Cat1", answer_key_labels p2.2 "Cat1"),
       ("Cat2", answer_key_labels p2.2 "Cat2")] p2.2 = some 100
  exact hov

/-- C8, counterexample: with a shuffle that swaps the first two options of
every question, the fallback questions of both categories have correct
label "b", so a user answering "a" everywhere scores 0.0 in both
categories - not the 100.0 the claim asserts for answering label "a". -/
theorem c8_counterexample :
    ((generate_questions c8_config "Cat1" none (fun _ => swapFirstTwo) []).bind (fun p1 =>
      (generate_questions c8_config "Cat2" none (fun _ => swapFirstTwo) p1.2).bind (fun p2 =>
        calculate_scores c8_config c8_answers_a p2.2)))
      = some [("Cat1", 0), ("Cat2", 0)] := by
  have h : ((generate_questions c8_config "Cat1" none (fun _ => swapFirstTwo) []).bind (fun p1 =>
      (generate_questions c8_config "Cat2" none (fun _ => swapFirstTwo) p1.2).bind (fun p2 =>
        calculate_scores c8_config c8_answers_a p2.2)))
      = some [("Cat1", (((0 : Nat) : ℚ) / ((5 : Nat) : ℚ)) * 100),
              ("Cat2", (((0 : Nat) : ℚ) / ((5 : Nat) : ℚ)) * 100)] := rfl
  rw [h]
  norm_num

/-- C10: the scoring pipeline reads only the category list (and the
CORRECT_ANSWERS map) - replacing the QUESTION_WEIGHTS entry of the
configuration module by any other weight table changes neither any Score Map
value nor the overall score, i.e. every question is weighted equally. -/
theorem c10_weights_have_no_effect (cfg : Config) (w : PyDict ℚ)
    (answers : PyDict (List String)) (keys : KeyMap) :
    calculate_scores ⟨cfg.skill_categories, cfg.category_details,
        cfg.score_thresholds, w⟩ answers keys
      = calculate_scores cfg answers keys
    ∧ report_overall ⟨cfg.skill_categories, cfg.category_details,
        cfg.score_thresholds, w⟩ answers keys
      = report_overall cfg answers keys
    ∧ calculate_scores ⟨SKILL_CATEGORIES, CATEGORY_DETAILS, SCORE_THRESHOLDS, w⟩
        answers keys
      = calculate_scores defaultConfig answers keys :=
  ⟨rfl, rfl, rfl⟩

end SkillPrep
